import Mathlib

/-!
# Verification of `rustybrain-core`: zettel front-matter codec and config loader

Shallow embedding of `rustybrain-core/src/zettel/mod.rs` and
`rustybrain-core/src/config.rs`.  File contents are modelled as `List Char`
(the files are UTF-8 text); the `std::io::Cursor` is modelled by explicitly
passing the not-yet-consumed suffix of the buffer.  A Rust function that can
fail returns `Except`; a Rust loop that can run forever is modelled with an
outer `Option`, where `none` denotes divergence.
-/

/-- Kinds of `std::io::Error` distinguished by the code: `ErrorKind::NotFound`
versus every other kind (the code only ever matches on `NotFound`). -/
inductive IoErrorKind where
  | notFound
  | other
deriving DecidableEq, Repr

/-- Errors of `toml::from_str` that the embedded TOML subset can produce:
a required struct field is absent, or the text is not key/value lines. -/
inductive TomlDeError where
  | missingField (field : String)
  | syntaxError
deriving DecidableEq, Repr

/-- `enum ZettelError { IOError(io::Error), ParseHeaderError(toml::de::Error) }`
from `zettel/mod.rs`. -/
inductive ZettelError where
  | IOError (e : IoErrorKind)
  | ParseHeaderError (e : TomlDeError)
deriving DecidableEq, Repr

/-- `struct ZettelHeader { title: String, #[serde(skip)] raw: String }`. -/
structure ZettelHeader where
  title : String
  raw : String
deriving DecidableEq, Repr

/-- `struct Zettel { path, header, content, link_to }`. -/
structure Zettel where
  path : String
  header : ZettelHeader
  content : String
  link_to : List String
deriving DecidableEq, Repr

/-- `cursor.read_line(&mut buf)`: consume and return the bytes up to and
including the first `'\n'`, or everything if no newline remains, together
with the unconsumed rest of the buffer. -/
def readLine : List Char → List Char × List Char
  | [] => ([], [])
  | c :: cs =>
    if c = '\n' then ([c], cs)
    else (c :: (readLine cs).1, (readLine cs).2)

instance {α β : Type} [DecidableEq α] [DecidableEq β] :
    DecidableEq (Except α β) := fun
  | .error a, .error b =>
    if h : a = b then .isTrue (by rw [h])
    else .isFalse (by intro hc; cases hc; exact h rfl)
  | .error _, .ok _ => .isFalse (by intro hc; cases hc)
  | .ok _, .error _ => .isFalse (by intro hc; cases hc)
  | .ok a, .ok b =>
    if h : a = b then .isTrue (by rw [h])
    else .isFalse (by intro hc; cases hc; exact h rfl)

/-- `line_buf.strip_prefix("+")`: the code strips a single `'+'` character. -/
def stripPlus : List Char → Option (List Char)
  | '+' :: rest => some rest
  | _ => none

/-- The `loop` in `ZettelHeader::read`: keep reading lines; a line that is
exactly `"+"` (a `'+'` with nothing after it, which `read_line` can only
produce at end of file) returns the accumulated header; any other line,
the whole of it, is appended to the header.  When `read_line` reads zero
bytes (end of file) the Rust loop repeats forever without progress; that
divergence is modelled by `none`.  The `fuel` argument only makes the
recursion structural: every iteration that recurses strictly shortens the
buffer, so with `fuel ≥ buf.length + 1` the fuel can never run out before
either exit (see `readLoop_fuel_irrelevant`). -/
def readLoop : Nat → List Char → List Char → Option (List Char × List Char)
  | 0, _, _ => none
  | fuel + 1, buf, header =>
    if (readLine buf).1 = [] then
      none
    else
      match stripPlus (readLine buf).1 with
      | some [] => some (header, (readLine buf).2)
      | _ => readLoop fuel (readLine buf).2 (header ++ (readLine buf).1)

/-- `ZettelHeader::read`: read the first line; if it strips a leading `'+'`
and the remainder is non-empty, return the (still empty) header at once;
if the remainder is empty enter the accumulation loop; if the first line
does not start with `'+'`, return the empty header.  In every case the
first line has already been consumed from the cursor.  Returns the raw
header text together with the unconsumed rest of the buffer. -/
def ZettelHeader.read (buf : List Char) : Option (List Char × List Char) :=
  match stripPlus (readLine buf).1 with
  | some remain =>
    if remain ≠ [] then some ([], (readLine buf).2)
    else readLoop ((readLine buf).2.length + 1) (readLine buf).2 []
  | none => some ([], (readLine buf).2)

/-- Split a character list at every occurrence of `sep` (like
`str::split`/`String.splitOn`: the empty list yields one empty piece). -/
def splitOnChar (sep : Char) : List Char → List (List Char)
  | [] => [[]]
  | c :: cs =>
    if c = sep then [] :: splitOnChar sep cs
    else
      match splitOnChar sep cs with
      | [] => [[c]]
      | l :: ls => (c :: l) :: ls

/-- Drop spaces at both ends of a line fragment. -/
def trimSpaces (l : List Char) : List Char :=
  ((l.dropWhile (· = ' ')).reverse.dropWhile (· = ' ')).reverse

/-- One `key = "value"` line of the TOML subset: a key, `=`, and a
double-quoted string value. -/
def parseTomlLine (line : List Char) : Option (List Char × List Char) :=
  match splitOnChar '=' line with
  | [k, v] =>
    match trimSpaces v with
    | '"' :: rest =>
      if rest.getLast? = some '"' then some (trimSpaces k, rest.dropLast)
      else none
    | _ => none
  | _ => none

/-- Key/value pairs of the lines of a flat TOML document (blank lines are
skipped); `none` when some line is not of the supported shape. -/
def parseTomlPairs : List (List Char) → Option (List (List Char × List Char))
  | [] => some []
  | l :: ls =>
    if l = [] then parseTomlPairs ls
    else
      match parseTomlLine l, parseTomlPairs ls with
      | some kv, some rest => some (kv :: rest)
      | _, _ => none

/-- Modelled from the library behavior of `toml::from_str::<ZettelHeader>` on
the flat `key = "value"` documents this program handles: deserialization
requires the `title` field (`title: String` has no default, so an absent
`title` is a deserialization error), and the `#[serde(skip)]` field `raw`
is not read from the document, staying at its default `""`. -/
def tomlFromStr (raw : List Char) : Except TomlDeError ZettelHeader :=
  match parseTomlPairs (splitOnChar '\n' raw) with
  | none => .error .syntaxError
  | some kvs =>
    match kvs.lookup "title".data with
    | some t => .ok ⟨String.mk t, ""⟩
    | none => .error (.missingField "title")

/-- `ZettelHeader::from_cursor`: run `read`, then `toml::from_str` on the raw
header text.  Returns the parsed header together with the unconsumed rest of
the buffer; `none` models the divergence of `read`. -/
def ZettelHeader.from_cursor (buf : List Char) :
    Option (Except ZettelError (ZettelHeader × List Char)) :=
  match ZettelHeader.read buf with
  | none => none
  | some (raw, rest) =>
    match tomlFromStr raw with
    | .error e => some (.error (.ParseHeaderError e))
    | .ok h => some (.ok (h, rest))

/-- A file system: maps a path either to the file's content, or to the
`io::ErrorKind` with which `File::open`/reading fails (`notFound` exactly
when no file exists at the path). -/
def FS := String → Except IoErrorKind (List Char)

/-- The struct literal of the `Ok` arm of `Zettel::from_md`:
`Zettel { path: path.to_string(), header, content, link_to: vec![] }` —
the path argument verbatim, the remaining cursor content, and an empty
link vector. -/
def Zettel.from_md_ok (path : String) (header : ZettelHeader)
    (rest : List Char) : Zettel :=
  { path := path, header := header, content := String.mk rest, link_to := [] }

/-- `Zettel::from_md`: open and read the file, parse the header from a cursor
over its bytes, and take everything the cursor has not consumed as the
content (the `Ok` arm is `Zettel.from_md_ok`). -/
def Zettel.from_md (fs : FS) (path : String) :
    Option (Except ZettelError Zettel) :=
  match fs path with
  | .error e => some (.error (.IOError e))
  | .ok buf =>
    match ZettelHeader.from_cursor buf with
    | none => none
    | some (.error e) => some (.error e)
    | some (.ok (header, rest)) =>
      some (.ok (Zettel.from_md_ok path header rest))

/-- `Zettel::title` — its body is `todo!()`, which unconditionally panics.
The panic is modelled by `none`: no input makes the accessor return the
stored field. -/
def Zettel.title (_z : Zettel) : Option String := none

/-- `Zettel::content` — its body is `todo!()`, modelled by `none` (the
structure field `Zettel.content` is therefore never returned). -/
def Zettel.getContent (_z : Zettel) : Option String := none

/-- `Zettel::path` — its body is `todo!()`, modelled by `none` (the
structure field `Zettel.path` is therefore never returned). -/
def Zettel.getPath (_z : Zettel) : Option String := none

/-- `Zettel::set_title` — its body is empty (`{}`): the zettel is returned
unchanged, and the struct has no dirty flag to set. -/
def Zettel.set_title (z : Zettel) (_title : String) : Zettel := z

/-- `Zettel::set_content` — its body is empty (`{}`): the zettel is returned
unchanged. -/
def Zettel.set_content (z : Zettel) (_content : String) : Zettel := z

/-- `Zettel::save` — an associated function taking no data (not even `self`)
with an empty body: it computes nothing and writes nothing. -/
def Zettel.save : Unit := ()

/-- Modelled from the spec: the serializer that the repository does not
implement (`Zettel::save` is the empty stub above).  Per the spec it writes
the opening delimiter line `+++`, the metadata as key/value text, the
closing delimiter line `+++`, then the body verbatim. -/
def encodeZettel (m : ZettelHeader) (body : String) : List Char :=
  ("+++\n" ++ "title = \"" ++ m.title ++ "\"\n" ++ "+++\n" ++ body).data

/-! ## `config.rs`: the configuration loader -/

/-- `struct Repo { path: String }`. -/
structure Repo where
  path : String
deriving DecidableEq, Repr

/-- `struct Shortcut { find, insert, quit: String }`. -/
structure Shortcut where
  find : String
  insert : String
  quit : String
deriving DecidableEq, Repr

/-- `struct Config { repo, shortcut, colors }` — the `colors` table is a
record of 22 further string fields, all `#[allow(dead_code)]` and read by
nothing the claims touch, so it is not modelled field-by-field here. -/
structure Config where
  repo : Repo
  shortcut : Shortcut
deriving DecidableEq, Repr

/-- `Config::repo_path`: returns `&self.repo.path` verbatim — no
resolution, normalization or validation of any kind. -/
def Config.repo_path (c : Config) : String := c.repo.path

/-- The lines of `DEFAULT_CONFIG_CONTENT` (the Rust raw string literal in
`config.rs`), in order; the literal starts with a newline, hence the
leading empty line. -/
def DEFAULT_CONFIG_LINES : List String :=
  [ ""
  , "[repo]"
  , "path = \"RustyBrain\""
  , ""
  , "[shortcut]"
  , "find = \"<Control><Shift>f\""
  , "insert = \"<Control>i\""
  , "quit = \"<Meta>q\""
  , ""
  , "[colors]"
  , "primary = \"#546E7A\""
  , "primary_text = \"#FAFAFA\""
  , "primary_dark = \"#29434e\""
  , "primary_light = \"#819ca9\""
  , ""
  , "secondary = \"#B2EBF2\""
  , "secondary_light = \"#e5ffff\""
  , "secondary_dark = \"#81b9bf\""
  , "secondary_text = \"#000000\""
  , ""
  , "foreground = \"#546E7A\""
  , "background = \"#FAFAFA\""
  , ""
  , "base00 = \"#FAFAFA\""
  , "base01 = \"#90A4AE\""
  , "base02 = \"#78909C\""
  , "base03 = \"#546E7A\""
  , "yellow = \"#F57F17\""
  , "yellow1 = \"#F9A725\""
  , "brown = \"#4E342E\""
  , "brown1 = \"#6D4C41\""
  , "orange = \"#D84315\""
  , "orange1 = \"#FF5722\""
  , "red = \"#D50000\""
  , "red1 = \"#FF1744\""
  , "pink = \"#F8BBD0\""
  , "pink1 = \"#EC407A\""
  , "purple = \"#7E57C2\""
  , "purple1 = \"#B388FF\""
  , "blue = \"#42A5F5\""
  , "blue1 = \"#1E88E5\""
  , "indigo = \"#5C6BC0\""
  , "indigo1 = \"#9FA8DA\""
  , "cyan = \"#0097A7\""
  , "cyan1 = \"#00B8D4\""
  , "teal = \"#26A69A\""
  , "teal1 = \"#00897B\""
  , "green = \"#66BB6A\""
  , "green1 = \"#558B2F\""
  ]

/-- `DEFAULT_CONFIG_CONTENT`, byte for byte: its lines joined by newlines,
with the trailing newline the raw literal ends with. -/
def DEFAULT_CONFIG_CONTENT : String :=
  String.intercalate "\n" DEFAULT_CONFIG_LINES ++ "\n"

/-- A TOML `[section]` header line. -/
def sectionName (line : List Char) : Option (List Char) :=
  match line with
  | '[' :: rest =>
    if rest.getLast? = some ']' then some rest.dropLast else none
  | _ => none

/-- Look up `sect.key` in the lines of a TOML document: track the current
section, and return the value of the first `key = "value"` line seen while
inside `[sect]`. -/
def tomlSectionLookup (lines : List (List Char)) (sect key : List Char) :
    Option (List Char) :=
  (lines.foldl
    (fun st line =>
      match sectionName line with
      | some s => (s, st.2)
      | none =>
        match st.2, parseTomlLine line with
        | none, some (k, v) =>
          (st.1, if st.1 = sect ∧ k = key then some v else none)
        | _, _ => st)
    (([] : List Char), (none : Option (List Char)))).2

/-- A path is absolute when it starts with the root separator (the program
only runs on Unix-style hosts: the root is taken from `$HOME`). -/
def isAbsolutePath (p : String) : Bool :=
  match p.data with
  | '/' :: _ => true
  | _ => false

/-- The observable state of the `config.toml` file ahead of
`ConfigLoader::attempt_set_default`: no file exists at the path, a file
with some content exists and can be opened, or opening fails with an
`io::ErrorKind` other than `NotFound`. -/
inductive ConfigFileState where
  | absent
  | present (content : String)
  | openFails (k : IoErrorKind)
deriving DecidableEq, Repr

/-- `File::open(&self.path)`: succeeds with the content when the file is
present, fails with `NotFound` when no file exists, and otherwise fails
with the state's error kind. -/
def fileOpen : ConfigFileState → Except IoErrorKind String
  | .absent => .error .notFound
  | .present c => .ok c
  | .openFails k => .error k

/-- `ConfigLoader::create_default`: `File::create` the config file and write
`DEFAULT_CONFIG_CONTENT` into it.  (The write itself is assumed to succeed,
matching the spec's assumption that the local file system is reliable.)
The resulting file state holds exactly the default content. -/
def create_default (_st : ConfigFileState) : Except IoErrorKind ConfigFileState :=
  .ok (.present DEFAULT_CONFIG_CONTENT)

/-- `ConfigLoader::attempt_set_default`: try to open `config.toml`; on
success do nothing; on `NotFound` write the default config; propagate any
other open error.  Returns the file state after the call. -/
def attempt_set_default (st : ConfigFileState) :
    Except IoErrorKind ConfigFileState :=
  match fileOpen st with
  | .ok _ => .ok st
  | .error e =>
    match e with
    | .notFound => create_default st
    | .other => .error .other

/-! ## Shared helper lemmas -/

theorem readLine_length (buf : List Char) :
    (readLine buf).1.length + (readLine buf).2.length = buf.length := by
  induction buf with
  | nil => rfl
  | cons c cs ih =>
    by_cases h : c = '\n'
    · simp [readLine, h]
      omega
    · simp only [readLine, if_neg h, List.length_cons]
      omega

theorem readLine_first_ne_nil (c : Char) (cs : List Char) :
    (readLine (c :: cs)).1 ≠ [] := by
  by_cases h : c = '\n' <;> simp [readLine, h]

theorem readLoop_fuel_irrelevant (fuel fuel' : Nat) (buf header : List Char)
    (h : buf.length + 1 ≤ fuel) (h' : buf.length + 1 ≤ fuel') :
    readLoop fuel buf header = readLoop fuel' buf header := by
  induction fuel using Nat.strong_induction_on generalizing fuel' buf header with
  | _ fuel ih =>
    match fuel, fuel' with
    | 0, _ => omega
    | _ + 1, 0 => omega
    | f + 1, f' + 1 =>
      simp only [readLoop]
      by_cases hline : (readLine buf).1 = []
      · simp [hline]
      · simp only [if_neg hline]
        have hlen := readLine_length buf
        have hpos : 0 < (readLine buf).1.length := List.length_pos.mpr hline
        match stripPlus (readLine buf).1 with
        | some [] => rfl
        | some (_ :: _) => exact ih f (by omega) f' (readLine buf).2 _ (by omega) (by omega)
        | none => exact ih f (by omega) f' (readLine buf).2 _ (by omega) (by omega)

theorem stripPlus_some (l remain : List Char)
    (h : stripPlus l = some remain) : l = '+' :: remain := by
  unfold stripPlus at h
  split at h
  · rename_i rest
    simp only [Option.some.injEq] at h
    rw [h]
  · cases h

theorem readLine_fst_nil (buf : List Char) (h : (readLine buf).1 = []) :
    buf = [] := by
  cases buf with
  | nil => rfl
  | cons c cs => exact absurd h (readLine_first_ne_nil c cs)

/-- `read_line` can produce a line without a trailing newline — such as the
bare `"+"` that enters the accumulation loop — only at end of input, with
nothing left after it. -/
theorem readLine_plus_line_at_eof (buf : List Char)
    (h : (readLine buf).1 = ['+']) : (readLine buf).2 = [] := by
  cases buf with
  | nil => cases h
  | cons c cs =>
    by_cases hc : c = '\n'
    · rw [show readLine (c :: cs) = (['\n'], cs) from by simp [readLine, hc]]
        at h
      simp at h
    · have hr : readLine (c :: cs) = (c :: (readLine cs).1, (readLine cs).2) := by
        simp [readLine, hc]
      rw [hr] at h ⊢
      simp only [List.cons.injEq] at h
      have hcs : cs = [] := readLine_fst_nil cs h.2
      subst hcs
      rfl

/-- `ZettelHeader::read` either diverges or returns an empty raw header:
a first line that merely starts with `'+'` returns at once with the header
still empty (the `remain != ""` test succeeds because `read_line` keeps the
newline); a first line that is exactly `"+"` can only occur at end of
input, and then the loop spins at EOF (modelled `none`); any other first
line returns the empty header directly. -/
theorem read_raw_empty_or_diverges (buf : List Char) :
    ZettelHeader.read buf = none ∨
      ZettelHeader.read buf = some ([], (readLine buf).2) := by
  unfold ZettelHeader.read
  cases hs : stripPlus (readLine buf).1 with
  | none => exact Or.inr rfl
  | some remain =>
    cases remain with
    | nil =>
      have hline : (readLine buf).1 = ['+'] := stripPlus_some _ _ hs
      have hrest : (readLine buf).2 = [] := readLine_plus_line_at_eof buf hline
      rw [hrest]
      exact Or.inl rfl
    | cons c rest' => exact Or.inr rfl

/-- `ZettelHeader::from_cursor` never succeeds: the raw header is always
empty (or `read` diverges), and deserializing the empty document fails on
the required `title` field. -/
theorem from_cursor_never_ok (buf : List Char) :
    ZettelHeader.from_cursor buf = none ∨
      ZettelHeader.from_cursor buf =
        some (.error (.ParseHeaderError (.missingField "title"))) := by
  unfold ZettelHeader.from_cursor
  rcases read_raw_empty_or_diverges buf with h | h <;> rw [h]
  · exact Or.inl rfl
  · exact Or.inr rfl

/-- `Zettel::from_md` never returns a zettel: every run either diverges or
fails with some `ZettelError`. -/
theorem from_md_no_ok_result (fs : FS) (p : String) :
    Zettel.from_md fs p = none ∨
      ∃ e, Zettel.from_md fs p = some (.error e) := by
  unfold Zettel.from_md
  cases hfs : fs p with
  | error e => exact Or.inr ⟨.IOError e, rfl⟩
  | ok buf =>
    rcases from_cursor_never_ok buf with h | h
    · exact Or.inl (by simp [h])
    · exact Or.inr ⟨.ParseHeaderError (.missingField "title"), by simp [h]⟩

theorem from_cursor_error_shape (buf : List Char) (e : ZettelError)
    (h : ZettelHeader.from_cursor buf = some (.error e)) :
    ∃ t, e = .ParseHeaderError t := by
  unfold ZettelHeader.from_cursor at h
  split at h
  · exact absurd h (by simp)
  · split at h
    · rename_i t _
      simp only [Option.some.injEq, Except.error.injEq] at h
      exact ⟨t, h.symm⟩
    · simp at h

/-! ## The claims -/

/-- C1: the claim says a file whose first line is not `+++` decodes to
default metadata with the whole file as body.  The code disagrees: on the
two-line file `"hello\nworld\n"` (first line not `+++`), `from_md` fails
with `ParseHeaderError` (the empty raw header is missing the required
`title` field), and `ZettelHeader::read` has besides consumed the first
line, so even the cursor's remaining content is `"world\n"`, not the whole
file. -/
theorem noHeader_file_fails_to_decode :
    Zettel.from_md (fun _ => .ok ("hello\nworld\n".data)) "note.md" =
      some (.error (.ParseHeaderError (.missingField "title"))) ∧
    ZettelHeader.read ("hello\nworld\n".data) =
      some ([], "world\n".data) := by
  exact ⟨by decide, by decide⟩

/-- C2: decoding any file whose first line is the opening delimiter `+++`
(with a trailing newline, or bare at end of file) terminates and returns a
`ParseHeaderError`, never a partial or empty-metadata success — in
particular for files with no closing `+++` line. -/
theorem plusplusplus_first_line_yields_parse_error
    (fs : FS) (p : String) (buf : List Char)
    (hopen : fs p = .ok buf)
    (hline : (readLine buf).1 = "+++\n".data ∨ (readLine buf).1 = "+++".data) :
    Zettel.from_md fs p =
      some (.error (.ParseHeaderError (.missingField "title"))) := by
  have hread : ZettelHeader.read buf = some ([], (readLine buf).2) := by
    unfold ZettelHeader.read
    rcases hline with h | h <;> rw [h] <;> rfl
  have hfc : ZettelHeader.from_cursor buf =
      some (.error (.ParseHeaderError (.missingField "title"))) := by
    unfold ZettelHeader.from_cursor
    rw [hread]
    rfl
  simp only [Zettel.from_md, hopen, hfc]

/-- Witness for C2 at a concrete unclosed-header file. -/
theorem plusplusplus_first_line_yields_parse_error_witness :
    Zettel.from_md (fun _ => .ok ("+++\ntitle = \"a\"\nbody".data)) "n.md" =
      some (.error (.ParseHeaderError (.missingField "title"))) :=
  plusplusplus_first_line_yields_parse_error
    (fun _ => .ok ("+++\ntitle = \"a\"\nbody".data)) "n.md"
    ("+++\ntitle = \"a\"\nbody".data) rfl (Or.inl (by decide))

/-- C3: the error taxonomy of `Zettel::from_md`: it fails with
`IOError NotFound` exactly when no file exists at the path, with
`ParseHeaderError` exactly when the header codec reports a parse error on
the opened file, and every error it returns is one of the two `ZettelError`
variants. -/
theorem from_md_error_taxonomy (fs : FS) (p : String) :
    (∀ k, Zettel.from_md fs p = some (.error (.IOError k)) ↔ fs p = .error k) ∧
    (∀ e, Zettel.from_md fs p = some (.error (.ParseHeaderError e)) ↔
      ∃ buf, fs p = .ok buf ∧
        ZettelHeader.from_cursor buf =
          some (.error (.ParseHeaderError e))) ∧
    (∀ e, Zettel.from_md fs p = some (.error e) →
      (∃ k, e = .IOError k) ∨ ∃ t, e = .ParseHeaderError t) := by
  refine ⟨fun k => ⟨fun h => ?_, fun h => by simp [Zettel.from_md, h]⟩,
          fun e => ⟨fun h => ?_, fun ⟨buf, hb, hc⟩ => ?_⟩,
          fun e h => ?_⟩
  · unfold Zettel.from_md at h
    split at h
    · rename_i k' hk'
      simp only [Option.some.injEq, Except.error.injEq,
        ZettelError.IOError.injEq] at h
      rw [hk', h]
    · rename_i buf hbuf
      exfalso
      split at h
      · exact absurd h (by simp)
      · rename_i e' he'
        simp only [Option.some.injEq, Except.error.injEq] at h
        obtain ⟨t, ht⟩ := from_cursor_error_shape buf e' he'
        subst h
        cases ht
      · exact absurd h (by simp)
  · unfold Zettel.from_md at h
    split at h
    · exact absurd h (by simp)
    · rename_i buf hbuf
      refine ⟨buf, hbuf, ?_⟩
      split at h
      · exact absurd h (by simp)
      · rename_i e' he'
        simp only [Option.some.injEq, Except.error.injEq] at h
        subst h
        exact he'
      · exact absurd h (by simp)
  · simp [Zettel.from_md, hb, hc]
  · cases e with
    | IOError k => exact Or.inl ⟨k, rfl⟩
    | ParseHeaderError t => exact Or.inr ⟨t, rfl⟩

/-- Witness for C3 at a missing file and at a file that fails header
parsing. -/
theorem from_md_error_taxonomy_witness :
    Zettel.from_md (fun _ => .error .notFound) "missing.md" =
      some (.error (.IOError .notFound)) ∧
    ((∃ k, (ZettelError.IOError .notFound) = .IOError k) ∨
      ∃ t, (ZettelError.IOError .notFound) = .ParseHeaderError t) := by
  have h1 :=
    ((from_md_error_taxonomy (fun _ => .error .notFound) "missing.md").1
      .notFound).mpr rfl
  exact ⟨h1,
    (from_md_error_taxonomy (fun _ => .error .notFound) "missing.md").2.2 _ h1⟩

/-- C4: the claim says `decode(encode(m, b)) == (m, b)` for metadata with a
non-empty title and a delimiter-free body.  On the code it fails: with
`m.title = "a"` and `b = "hello"`, decoding the spec-modelled serialization
returns a `ParseHeaderError` (the decoder abandons the header after the
first line `+++`, so the raw header text is empty and `title` is missing),
not `(m, b)`. -/
theorem roundTrip_fails_on_code :
    ZettelHeader.from_cursor (encodeZettel ⟨"a", ""⟩ "hello") =
      some (.error (.ParseHeaderError (.missingField "title"))) ∧
    ZettelHeader.from_cursor (encodeZettel ⟨"a", ""⟩ "hello") ≠
      some (.ok (⟨"a", ""⟩, "hello".data)) := by
  exact ⟨by decide, by decide⟩

/-- C5: the claim says `set_title`/`set_content` replace the respective
field and mark the note dirty.  The code's two setters have empty bodies:
they change nothing (and `Zettel` has no dirty flag at all), so after
`set_title "new"` the title is still the old one. -/
theorem set_title_set_content_are_noops :
    (∀ (z : Zettel) (t : String), Zettel.set_title z t = z) ∧
    (∀ (z : Zettel) (c : String), Zettel.set_content z c = z) ∧
    (Zettel.set_title ⟨"p.md", ⟨"old", ""⟩, "body", []⟩ "new").header.title
      ≠ "new" ∧
    (Zettel.set_content ⟨"p.md", ⟨"old", ""⟩, "body", []⟩ "newbody").content
      ≠ "newbody" := by
  exact ⟨fun _ _ => rfl, fun _ _ => rfl, by decide, by decide⟩

/-- C6: the claim says the read accessors totally return the stored fields
without panicking.  The code's `title()`, `content()` and `path()` bodies
are all `todo!()`, which panics unconditionally: modelled as `none`, no
accessor ever returns its field. -/
theorem accessors_always_panic :
    (∀ z : Zettel, Zettel.title z = none) ∧
    (∀ z : Zettel, Zettel.getContent z = none) ∧
    (∀ z : Zettel, Zettel.getPath z = none) :=
  ⟨fun _ => rfl, fun _ => rfl, fun _ => rfl⟩

/-- C7: `Zettel::from_md` is deterministic in the file content and path:
two loads that observe the same bytes at the path produce identical
results (hence, were both to succeed, zettels with equal path, title,
content and links). -/
theorem from_md_deterministic (fs₁ fs₂ : FS) (p : String)
    (h : fs₁ p = fs₂ p) :
    Zettel.from_md fs₁ p = Zettel.from_md fs₂ p := by
  unfold Zettel.from_md
  rw [h]

/-- Witness for C7: two distinct file systems agreeing at the loaded path. -/
theorem from_md_deterministic_witness :
    Zettel.from_md (fun _ => .ok ("x\n".data)) "a.md" =
      Zettel.from_md
        (fun q => if q = "a.md" then .ok ("x\n".data) else .error .notFound)
        "a.md" :=
  from_md_deterministic _ _ "a.md" (by decide)

/-- C9: the `Ok` arm of `Zettel::from_md` — the struct literal
`Zettel.from_md_ok` — stores the path argument verbatim (no normalization
relative to a root) and an empty `link_to` vector for every header and
cursor remainder, so no link extraction happens at load time; and, so that
the claim is not held vacuously, the arm is in fact never reached: with the
current header codec `from_md` diverges or fails on every input, returning
no zettel at all. -/
theorem from_md_verbatim_path_no_links :
    (∀ (p : String) (header : ZettelHeader) (rest : List Char),
      (Zettel.from_md_ok p header rest).link_to = [] ∧
      (Zettel.from_md_ok p header rest).path = p) ∧
    (∀ (fs : FS) (p : String),
      Zettel.from_md fs p = none ∨
        ∃ e, Zettel.from_md fs p = some (.error e)) :=
  ⟨fun _ _ _ => ⟨rfl, rfl⟩, from_md_no_ok_result⟩

set_option maxRecDepth 20000 in
/-- The default config's lines are exactly `DEFAULT_CONFIG_LINES` (splitting
the content at newlines re-yields the lines, plus the empty piece after the
trailing newline). -/
theorem default_config_content_lines :
    splitOnChar '\n' DEFAULT_CONFIG_CONTENT.data =
      DEFAULT_CONFIG_LINES.map String.data ++ [[]] := by decide

set_option maxRecDepth 20000 in
/-- C8 counterexample: the claim says the slip-box root is an absolute
directory path, resolved and validated before use, never created or chosen
by the core.  But the core's own `ConfigLoader::create_default` writes
`DEFAULT_CONFIG_CONTENT`, whose `repo.path` — the slip-box root — is the
relative path `"RustyBrain"`, not an absolute one. -/
theorem default_slipbox_root_is_relative :
    create_default .absent = .ok (.present DEFAULT_CONFIG_CONTENT) ∧
    tomlSectionLookup (splitOnChar '\n' DEFAULT_CONFIG_CONTENT.data)
      "repo".data "path".data = some "RustyBrain".data ∧
    isAbsolutePath "RustyBrain" = false := by
  refine ⟨rfl, ?_, rfl⟩
  rw [default_config_content_lines]
  decide

set_option maxRecDepth 20000 in
/-- C8 amended: the slip-box root path is supplied through the
configuration as `repo.path` of `config.toml`, and `Config::repo_path`
returns that stored field verbatim, with no resolution or validation; when
`config.toml` is absent, the core's own `ConfigLoader` chooses the root by
writing a default configuration whose `repo.path` is the relative path
`"RustyBrain"`. -/
theorem slipbox_root_supplied_by_config_unvalidated :
    (∀ c : Config, c.repo_path = c.repo.path) ∧
    attempt_set_default .absent = .ok (.present DEFAULT_CONFIG_CONTENT) ∧
    tomlSectionLookup (DEFAULT_CONFIG_LINES.map String.data)
      "repo".data "path".data = some "RustyBrain".data := by
  exact ⟨fun _ => rfl, rfl, by decide⟩

/-- C10: `ConfigLoader::attempt_set_default` (the step of
`ConfigLoader::load` that can write `config.toml`) writes the built-in
default configuration only when opening `config.toml` fails with
`NotFound`; an existing file's content is never overwritten, and any other
open error is propagated to the caller unchanged. -/
theorem attempt_set_default_frame :
    (∀ st st', attempt_set_default st = .ok st' →
      st' = st ∨ (fileOpen st = .error .notFound ∧
        st' = .present DEFAULT_CONFIG_CONTENT)) ∧
    (∀ c, attempt_set_default (.present c) = .ok (.present c)) ∧
    attempt_set_default .absent = .ok (.present DEFAULT_CONFIG_CONTENT) ∧
    attempt_set_default (.openFails .other) = .error .other := by
  refine ⟨fun st st' h => ?_, fun _ => rfl, rfl, rfl⟩
  cases st with
  | absent =>
    simp only [attempt_set_default, fileOpen, create_default,
      Except.ok.injEq] at h
    exact Or.inr ⟨rfl, h.symm⟩
  | present c =>
    simp only [attempt_set_default, fileOpen, Except.ok.injEq] at h
    exact Or.inl h.symm
  | openFails k =>
    cases k with
    | notFound =>
      simp only [attempt_set_default, fileOpen, create_default,
        Except.ok.injEq] at h
      exact Or.inr ⟨rfl, h.symm⟩
    | other => exact absurd h (by simp [attempt_set_default, fileOpen])

/-- Witness for C10: an existing config file is returned unchanged. -/
theorem attempt_set_default_frame_witness :
    (ConfigFileState.present "x" = .present "x") ∨
    (fileOpen (.present "x") = .error .notFound ∧
      ConfigFileState.present "x" = .present DEFAULT_CONFIG_CONTENT) :=
  attempt_set_default_frame.1 (.present "x") (.present "x") rfl
